import Mathlib

/-!
Verification of the CI_ReportGen indicator/grade reporting pipeline.

Shallow embedding of the decision logic of `textformatting.py`,
`grades_org.py`, `Report.py` and `DataStore.py`, together with theorems
settling the frozen claims about those functions.  Python `int` arithmetic
on the (non-negative) year/term values is modelled with `Nat`; grade values
are modelled with `ℚ`; fallible code returns `Except`/`Option`.
-/

namespace CIReportGen

/-! ## Cohort mapper (`textformatting.py`, `get_cohort` / `get_cohort_coop`) -/

/-- Fuel-indexed unfolding of the loop `while year > 9999: year //= 10`
from `textformatting.get_cohort` (textformatting.py lines 160-161).  The
loop strictly shrinks `year` on every iteration, so `year` itself is
enough fuel (`normLoop_stops` below certifies this). -/
def normLoop : Nat → Nat → Nat
  | 0, y => y
  | fuel + 1, y => if 9999 < y then normLoop fuel (y / 10) else y

/-- Normalization of a year-and-semester value (such as 201703) to a
4-digit year, exactly the `while year > 9999` loop of `get_cohort`. -/
def normalizeYear (y : Nat) : Nat := normLoop y y

/-- Embedding of `textformatting.get_cohort` (textformatting.py lines
135-180) in the `term_taken`-override calling convention used by the
claims: the year is normalized by the division loop, term 0 returns the
year unchanged, and otherwise the conditional chain adds the offset.
The `course`-regex path for a missing `term_taken` is not modelled. -/
def get_cohort (year : Nat) (term_taken : Nat) : Nat :=
  let y := normalizeYear year
  if term_taken = 0 then y
  else if term_taken = 1 ∨ term_taken = 2 then y + 5
  else if term_taken = 3 ∨ term_taken = 4 then y + 4
  else if term_taken = 5 then y + 3
  else if term_taken = 6 ∨ term_taken = 7 then y + 2
  else if term_taken = 8 then y + 1
  else y

/-- Offset table of the spec ("terms {1,2} → +5; {3,4} → +4; {5} → +3;
{6,7} → +2; {8} → +1"), written as the same conditional chain so that it
can be compared against `get_cohort`. -/
def specOffset (term_taken : Nat) : Nat :=
  if term_taken = 0 then 0
  else if term_taken = 1 ∨ term_taken = 2 then 5
  else if term_taken = 3 ∨ term_taken = 4 then 4
  else if term_taken = 5 then 3
  else if term_taken = 6 ∨ term_taken = 7 then 2
  else if term_taken = 8 then 1
  else 0

/-- Embedding of `textformatting.get_cohort_coop` (textformatting.py lines
183-241): split `year_and_semester` into `year = v // 100` and
`semester = v % 10`, compute `first_cohort = year + semester + 2`, raise
`ValueError` for a work term outside 1..4, and otherwise return
`first_cohort` when the work term lies in the first `4 - semester`
entries of `[1, 2, 3, 4]`, else `first_cohort - 2`. -/
def get_cohort_coop (year_and_semester WT : Nat) : Except String Nat :=
  let year := year_and_semester / 100
  let semester := year_and_semester % 10
  let first_cohort := year + semester + 2
  if WT ∉ ([1, 2, 3, 4] : List Nat) then .error "ValueError"
  else
    let first_cohort_WTs := (List.range (4 - semester)).map
      (fun i => ([1, 2, 3, 4] : List Nat).getD i 0)
    if WT ∈ first_cohort_WTs then .ok first_cohort else .ok (first_cohort - 2)

/-- Once the value is at most 9999 the loop stops, whatever fuel is left. -/
theorem normLoop_stop (fuel y : Nat) (h : y ≤ 9999) : normLoop fuel y = y := by
  cases fuel with
  | zero => rfl
  | succ n => simp [normLoop, Nat.not_lt.mpr h]

/-- The fuel `y` is enough for the loop to finish: the result of
`normalizeYear` is always a value at most 9999 (the loop's negated guard),
so using `y` itself as fuel faithfully models the `while` loop. -/
theorem normLoop_stops (fuel y : Nat) (h : y ≤ fuel) : normLoop fuel y ≤ 9999 := by
  induction fuel generalizing y with
  | zero =>
    have : y = 0 := by omega
    subst this
    simp [normLoop]
  | succ n ih =>
    by_cases hy : 9999 < y
    · have hd : y / 10 ≤ n := by omega
      simpa [normLoop, hy] using ih (y / 10) hd
    · simpa [normLoop, hy] using Nat.not_lt.mp hy

/-- The loop result does not depend on the fuel bound, provided the fuel
is at least the starting value. -/
theorem normLoop_fuel_irrel (fuel fuel' y : Nat) (h : y ≤ fuel) (h' : y ≤ fuel') :
    normLoop fuel y = normLoop fuel' y := by
  induction fuel generalizing fuel' y with
  | zero =>
    have : y = 0 := by omega
    subst this
    exact (normLoop_stop fuel' 0 (by omega)).symm
  | succ n ih =>
    by_cases hy : 9999 < y
    · have hfi : 0 < fuel' := by omega
      obtain ⟨m, rfl⟩ : ∃ m, fuel' = m + 1 := ⟨fuel' - 1, by omega⟩
      have hd : y / 10 ≤ n := by omega
      have hd' : y / 10 ≤ m := by omega
      simpa [normLoop, hy] using ih m (y / 10) hd hd'
    · rw [normLoop_stop (n + 1) y (by omega), normLoop_stop fuel' y (by omega)]

/-- `normalizeYear` satisfies the loop's step equation. -/
theorem normalizeYear_step (y : Nat) (h : 9999 < y) :
    normalizeYear y = normalizeYear (y / 10) := by
  unfold normalizeYear
  obtain ⟨m, rfl⟩ : ∃ m, y = m + 1 := ⟨y - 1, by omega⟩
  rw [show normLoop (m + 1) (m + 1) = normLoop m ((m + 1) / 10) by simp [normLoop, h]]
  exact normLoop_fuel_irrel m ((m + 1) / 10) ((m + 1) / 10) (by omega) (by omega)

/-- A value that is already a 4-digit (or smaller) year is left unchanged. -/
theorem normalizeYear_id (y : Nat) (h : y ≤ 9999) : normalizeYear y = y :=
  normLoop_stop y y h

/-- A 6-digit year-and-semester value normalizes to its year part `y / 100`. -/
theorem normalizeYear_six_digit (y : Nat) (h1 : 100000 ≤ y) (h2 : y ≤ 999999) :
    normalizeYear y = y / 100 := by
  rw [normalizeYear_step y (by omega), normalizeYear_step (y / 10) (by omega),
    Nat.div_div_eq_div_mul]
  exact normalizeYear_id (y / 100) (by omega)

/-- `get_cohort` is the normalized year plus the spec's offset table. -/
theorem get_cohort_eq_offset (y t : Nat) :
    get_cohort y t = normalizeYear y + specOffset t := by
  unfold get_cohort specOffset
  dsimp only
  split_ifs <;> omega

/-- C1 counterexample: `get_cohort` is not non-decreasing in the raw year
input.  With term 1, the input 2018 is at most 201701, yet
`get_cohort 201701 1 = 2022 < 2023 = get_cohort 2018 1`, because 201701
first normalizes down to the year 2017. -/
theorem c1_counterexample :
    2018 ≤ 201701 ∧ get_cohort 201701 1 < get_cohort 2018 1 := by
  refine ⟨by omega, ?_⟩
  decide

/-- C1 (amended): for every year input and term in 1..8, `get_cohort`
normalizes the year by repeated floor division by 10 while it exceeds
9999 and adds the fixed offset table (terms {1,2} add 5, {3,4} add 4, {5}
adds 3, {6,7} add 2, {8} adds 1); `get_cohort 2017 1 = 2022` and
`get_cohort 2017 8 = 2018`; and the result is non-decreasing in the year
among inputs of the same format — both plain years (at most 9999) or both
6-digit year-and-semester values — though not across the two formats. -/
theorem c1_get_cohort_amended :
    (∀ y t, 1 ≤ t → t ≤ 8 → get_cohort y t = normalizeYear y + specOffset t) ∧
    (∀ y, 9999 < y → normalizeYear y = normalizeYear (y / 10)) ∧
    (∀ y, y ≤ 9999 → normalizeYear y = y) ∧
    get_cohort 2017 1 = 2022 ∧ get_cohort 2017 8 = 2018 ∧
    (∀ y1 y2 t, y1 ≤ y2 → y2 ≤ 9999 → get_cohort y1 t ≤ get_cohort y2 t) ∧
    (∀ y1 y2 t, 100000 ≤ y1 → y1 ≤ y2 → y2 ≤ 999999 →
      get_cohort y1 t ≤ get_cohort y2 t) := by
  refine ⟨fun y t _ _ => get_cohort_eq_offset y t, normalizeYear_step,
    normalizeYear_id, by decide, by decide, ?_, ?_⟩
  · intro y1 y2 t h12 h2
    rw [get_cohort_eq_offset, get_cohort_eq_offset,
      normalizeYear_id y1 (le_trans h12 h2), normalizeYear_id y2 h2]
    omega
  · intro y1 y2 t h1 h12 h2
    rw [get_cohort_eq_offset, get_cohort_eq_offset,
      normalizeYear_six_digit y1 h1 (le_trans h12 h2),
      normalizeYear_six_digit y2 (le_trans h1 h12) h2]
    exact Nat.add_le_add_right (Nat.div_le_div_right h12) _

/-- Closed witness for `c1_get_cohort_amended` at concrete inputs. -/
theorem c1_get_cohort_amended_witness :
    get_cohort 2017 3 = normalizeYear 2017 + specOffset 3 ∧
    normalizeYear 20173 = normalizeYear 2017 ∧
    normalizeYear 2017 = 2017 ∧
    get_cohort 2016 5 ≤ get_cohort 2018 5 ∧
    get_cohort 201601 5 ≤ get_cohort 201802 5 :=
  ⟨c1_get_cohort_amended.1 2017 3 (by omega) (by omega),
    c1_get_cohort_amended.2.1 20173 (by omega),
    c1_get_cohort_amended.2.2.1 2017 (by omega),
    c1_get_cohort_amended.2.2.2.2.2.1 2016 2018 5 (by omega) (by omega),
    c1_get_cohort_amended.2.2.2.2.2.2 201601 201802 5 (by omega) (by omega) (by omega)⟩

/-- C2: for every `year_and_semester` whose semester digit is in {1,2,3}
and every work term in {1,2,3,4}, `get_cohort_coop` returns
`(v / 100) + (v % 10) + 2` when the work term is at most `4 - semester`,
and that value minus 2 otherwise; any other work term yields the
`ValueError`; and the four concrete examples of the spec hold. -/
theorem c2_get_cohort_coop_spec :
    (∀ ys WT, (ys % 10 = 1 ∨ ys % 10 = 2 ∨ ys % 10 = 3) →
      (WT = 1 ∨ WT = 2 ∨ WT = 3 ∨ WT = 4) →
      get_cohort_coop ys WT = .ok (if WT ≤ 4 - ys % 10
        then ys / 100 + ys % 10 + 2 else ys / 100 + ys % 10 + 2 - 2)) ∧
    (∀ ys WT, ¬(WT = 1 ∨ WT = 2 ∨ WT = 3 ∨ WT = 4) →
      get_cohort_coop ys WT = .error "ValueError") ∧
    get_cohort_coop 201701 1 = .ok 2020 ∧ get_cohort_coop 201701 4 = .ok 2018 ∧
    get_cohort_coop 201703 1 = .ok 2022 ∧ get_cohort_coop 201703 2 = .ok 2020 := by
  refine ⟨?_, ?_, rfl, rfl, rfl, rfl⟩
  · intro ys WT hs hw
    rcases hs with h | h | h <;> rcases hw with rfl | rfl | rfl | rfl <;>
      simp [get_cohort_coop, h, List.range_succ]
  · intro ys WT h
    have hmem : WT ∉ ([1, 2, 3, 4] : List Nat) := by simpa using h
    simp [get_cohort_coop, hmem]

/-- Closed witness for `c2_get_cohort_coop_spec` at concrete inputs. -/
theorem c2_get_cohort_coop_spec_witness :
    get_cohort_coop 201701 1 = .ok (if 1 ≤ 4 - 201701 % 10
      then 201701 / 100 + 201701 % 10 + 2 else 201701 / 100 + 201701 % 10 + 2 - 2) ∧
    get_cohort_coop 201699 5 = .error "ValueError" :=
  ⟨c2_get_cohort_coop_spec.1 201701 1 (by omega) (by omega),
    c2_get_cohort_coop_spec.2.1 201699 5 (by omega)⟩

/-! ## Bin formatter (`textformatting.py`, `format_bin_ranges`) -/

/-- Default bin labels set up by `Report.__init__` (Report.py lines 72-77)
and passed to `format_bin_ranges` by `Report.add_bin_ranges`. -/
def stdLabels : List String :=
  ["Below Expectations", "Marginally Meets Expectations",
   "Meets Expectations", "Exceeds Expectations"]

/-- Embedding of `textformatting.format_coop_bins` (textformatting.py
lines 110-133).  Bin values in the claims are integers, so the Python
float formatting `"{:.0f}"` is modelled by integer printing. -/
def format_coop_bins (bins : List ℤ) (bin_labels : List String) : String :=
  let size := bin_labels.length
  let desc := "Bin ranges: marks out of 5<br>"
  let desc := desc ++ "<=" ++ toString (bins.getD 1 0) ++ ": "
    ++ bin_labels.getD 0 "" ++ "   "
  (List.range' 1 (size - 1)).foldl
    (fun d i => d ++ toString (bins.getD (i + 1) 0) ++ ": "
      ++ bin_labels.getD i "" ++ "   ") desc

/-- Embedding of `textformatting.format_bin_ranges` (textformatting.py
lines 68-107): if the last two bins differ by 1 delegate to the co-op
formatter; otherwise emit the "marks out of" header, the first bin as
`<bins[1]` when `bins[0] ≤ 0` (else `bins[0]-(bins[1]-1)`), the interior
bins as `bins[i]-(bins[i+1]-1)`, and the last bin as
`bins[size-1]-bins[size]`. -/
def format_bin_ranges (bins : List ℤ) (bin_labels : List String) : String :=
  let size := bin_labels.length
  if bins.getD (bins.length - 1) 0 - bins.getD (bins.length - 2) 0 = 1 then
    format_coop_bins bins bin_labels
  else
    let desc := "Bin ranges: marks out of " ++ toString (bins.getD size 0) ++ "<br>"
    let desc := if bins.getD 0 0 ≤ 0 then
        desc ++ "<" ++ toString (bins.getD 1 0) ++ ": " ++ bin_labels.getD 0 "" ++ "   "
      else
        desc ++ toString (bins.getD 0 0) ++ "-" ++ toString (bins.getD 1 0 - 1)
          ++ ": " ++ bin_labels.getD 0 "" ++ "   "
    let desc := (List.range' 1 (size - 2)).foldl
      (fun d i => d ++ toString (bins.getD i 0) ++ "-" ++ toString (bins.getD (i + 1) 0 - 1)
        ++ ": " ++ bin_labels.getD i "" ++ "   ") desc
    desc ++ toString (bins.getD (size - 1) 0) ++ "-" ++ toString (bins.getD size 0)
      ++ ": " ++ bin_labels.getD (size - 1) ""

/-- Helper for `digitRuns`: scan the characters, carrying the numeric
value of the digit run in progress. -/
def digitRunsAux : List Char → Option Nat → List Nat
  | [], none => []
  | [], some n => [n]
  | c :: rest, acc =>
    if c.isDigit then digitRunsAux rest (some ((acc.getD 0) * 10 + (c.toNat - 48)))
    else
      match acc with
      | none => digitRunsAux rest none
      | some n => n :: digitRunsAux rest none

/-- Numeric substrings of a character list: every maximal digit run,
re-parsed as a natural number, in order of appearance. -/
def digitRuns (cs : List Char) : List Nat := digitRunsAux cs none

/-- Group a list into consecutive pairs, dropping a dangling element. -/
def pairUp : List Nat → List (Nat × Nat)
  | a :: b :: rest => (a, b) :: pairUp rest
  | _ => []

/-- Re-parse the numeric tokens of a standard bin description: the first
token is the "marks out of" header; the second is the lone bound `t` of
the `<t` first range, which over natural-number marks denotes `0..t-1`;
the remaining tokens come as lower-upper pairs. -/
def reparseBinRanges (toks : List Nat) : List (Nat × Nat) :=
  match toks with
  | _ :: t :: rest => (0, t - 1) :: pairUp rest
  | _ => []

/-- C9: applying `format_bin_ranges` to the standard bins
`[0, 50, 60, 80, 100]` with the 4 standard labels yields a description
whose numeric substrings are `100, 50, 50, 59, 60, 79, 80, 100` and,
re-parsed (the lone `<50` bound denoting the marks `0..49`), reconstruct
the adjacent boundary ranges `0-49, 50-59, 60-79, 80-100`. -/
theorem c9_bin_ranges_roundtrip :
    format_bin_ranges [0, 50, 60, 80, 100] stdLabels =
      "Bin ranges: marks out of 100<br><50: Below Expectations   50-59: Marginally Meets Expectations   60-79: Meets Expectations   80-100: Exceeds Expectations" ∧
    digitRuns (format_bin_ranges [0, 50, 60, 80, 100] stdLabels).data =
      [100, 50, 50, 59, 60, 79, 80, 100] ∧
    reparseBinRanges (digitRuns (format_bin_ranges [0, 50, 60, 80, 100] stdLabels).data) =
      [(0, 49), (50, 59), (60, 79), (80, 100)] :=
  ⟨rfl, rfl, rfl⟩

/-! ## Grade file resolver (`grades_org.py`, `find_grades_files`) -/

/-- Whitespace characters of Python `str.split()` (space, tab, newline,
carriage return, vertical tab, form feed). -/
def pyIsSpace (c : Char) : Bool :=
  c = ' ' || c = '\t' || c = '\n' || c = '\r' || c = '\x0b' || c = '\x0c'

/-- Normalization `"".join(s.lower().split())` used by
`grades_org.find_grades_files` (grades_org.py line 133): lowercase the
string, then remove every whitespace character.  Python's `str.lower` is
modelled by `Char.toLower` on each character (they agree on ASCII names). -/
def normalizeName (s : String) : String :=
  ⟨(s.data.map Char.toLower).filter (fun c => !pyIsSpace c)⟩

/-- Embedding of `grades_org.find_grades_files` (grades_org.py lines
107-144): keep the files whose list of boolean checks — normalized name
starts with the normalized `course ++ assessment`, and the original name
ends with `".xlsx"` — all hold.  `str.startswith`/`str.endswith` are
modelled by prefix/suffix tests on the character lists. -/
def find_grades_files (course assessment : String) (file_list : List String) : List String :=
  file_list.filter (fun file =>
    [(normalizeName (course ++ assessment)).data.isPrefixOf (normalizeName file).data,
     (".xlsx".data).isSuffixOf file.data].all id)

/-- C6: `find_grades_files` returns exactly the files of the list whose
whitespace-stripped lowercased name starts with the stripped lowercased
`course ++ assessment` and whose original name ends with `".xlsx"`; in
particular the search for "ENGI 1040" / "Circuits Grade" keeps
"ENGI1040CircuitsGrade.xlsx" and "engi 1040 circuits grade.xlsx" but
rejects the `.txt` file and the "ENGI 1041" file. -/
theorem c6_find_grades_files_spec :
    (∀ course assessment (files : List String) (f : String),
      f ∈ find_grades_files course assessment files ↔
        f ∈ files ∧
        (normalizeName (course ++ assessment)).data.isPrefixOf
          (normalizeName f).data = true ∧
        (".xlsx".data).isSuffixOf f.data = true) ∧
    find_grades_files "ENGI 1040" "Circuits Grade"
      ["ENGI1040CircuitsGrade.xlsx", "engi 1040 circuits grade.xlsx",
       "ENGI 1040 Circuits Grade.txt", "ENGI 1041 Circuits Grade.xlsx"] =
      ["ENGI1040CircuitsGrade.xlsx", "engi 1040 circuits grade.xlsx"] := by
  constructor
  · intro course assessment files f
    simp [find_grades_files, List.mem_filter, and_assoc]
  · rfl

/-- Closed witness for `c6_find_grades_files_spec`: membership of the
matching file in the concrete search. -/
theorem c6_find_grades_files_spec_witness :
    "engi 1040 circuits grade.xlsx" ∈ find_grades_files "ENGI 1040" "Circuits Grade"
      ["ENGI1040CircuitsGrade.xlsx", "engi 1040 circuits grade.xlsx"] :=
  (c6_find_grades_files_spec.1 "ENGI 1040" "Circuits Grade"
    ["ENGI1040CircuitsGrade.xlsx", "engi 1040 circuits grade.xlsx"]
    "engi 1040 circuits grade.xlsx").mpr ⟨by simp, by decide, by decide⟩

/-- C10: the spreadsheet-extension test of `find_grades_files` is
case-sensitive on the original file name: a file whose name ends with
`".XLSX"` is never returned, whatever the course, assessment and file
list (and regardless of its case-insensitive prefix match). -/
theorem c10_xlsx_case_sensitive (course assessment : String) (files : List String)
    (f : String) (h : (".XLSX".data).isSuffixOf f.data = true) :
    f ∉ find_grades_files course assessment files := by
  intro hmem
  have hp := (List.mem_filter.mp hmem).2
  simp only [List.all_cons, List.all_nil, id, Bool.and_true, Bool.and_eq_true] at hp
  have h2 : (".xlsx".data).isSuffixOf f.data = true := hp.2
  have s1 : ".XLSX".data <:+ f.data := List.isSuffixOf_iff_suffix.mp h
  have s2 : ".xlsx".data <:+ f.data := List.isSuffixOf_iff_suffix.mp h2
  obtain ⟨t1, ht1⟩ := s1
  obtain ⟨t2, ht2⟩ := s2
  have hlen : t1.length = t2.length := by
    have e1 := congrArg List.length ht1
    have e2 := congrArg List.length ht2
    simp at e1 e2
    omega
  have : ".XLSX".data = ".xlsx".data :=
    (List.append_inj (ht1.trans ht2.symm) hlen).2
  simp at this

/-- Closed witness for `c10_xlsx_case_sensitive`: the upper-case file
"ENGI1040CIRCUITSGRADE.XLSX" matches the normalized course/assessment
prefix yet is not returned. -/
theorem c10_xlsx_case_sensitive_witness :
    (normalizeName ("ENGI 1040" ++ "Circuits Grade")).data.isPrefixOf
      (normalizeName "ENGI1040CIRCUITSGRADE.XLSX").data = true ∧
    "ENGI1040CIRCUITSGRADE.XLSX" ∉ find_grades_files "ENGI 1040" "Circuits Grade"
      ["ENGI1040CIRCUITSGRADE.XLSX"] :=
  ⟨by decide, c10_xlsx_case_sensitive "ENGI 1040" "Circuits Grade"
    ["ENGI1040CIRCUITSGRADE.XLSX"] "ENGI1040CIRCUITSGRADE.XLSX" (by decide)⟩

/-! ## Histogram aggregator (`Report.py`, `Report.plot`)

Embedding of the binning/aggregation part of `Report.plot` (Report.py
lines 91-155): the co-op bin shift, the NDA sentinel bin, per-column null
stripping and string detection, `np.histogram` bucketing, conversion to
percentages, the NDA-threshold check and the final NDA strip.  The series
eviction (`max_plots`) and the plotly trace construction that follow are
not modelled.  A grade cell is a rational, a string, or a null; an
all-NaN percentage column (NumPy's result of dividing by a zero series
length) is modelled as `none`. -/

/-- Grade cell as read from a pandas column: a number, a piece of text,
or a null/NaN entry (`pd.isnull` is true exactly on the last). -/
inductive GVal where
  | num (q : ℚ)
  | str (s : String)
  | null
  deriving DecidableEq

/-- Test for a text cell, `isinstance(x, str)` in `Report.plot`. -/
def isStrVal : GVal → Bool
  | .str _ => true
  | _ => false

/-- Test whether a column contains any text cell (the condition on which
`Report.plot` raises its `ValueError`). -/
def hasStr (vals : List GVal) : Bool := vals.any isStrVal

/-- Numeric content of a column with nulls stripped: the
`data_to_histogram` list of `Report.plot` on a column without text cells
(its length is the column's true size). -/
def toNums (vals : List GVal) : List ℚ :=
  vals.filterMap (fun v => match v with | .num q => some q | _ => none)

/-- Counts of `np.histogram(vals, bins)`: for edges `b_0 < … < b_n`,
bucket `i` counts the values in `[b_i, b_{i+1})`, except the last bucket
which also includes its right edge. -/
def histCounts (bins : List ℚ) (vals : List ℚ) : List Nat :=
  (List.range (bins.length - 1)).map (fun i =>
    (vals.filter (fun v =>
      decide (bins.getD i 0 ≤ v) &&
        (if i = bins.length - 2 then decide (v ≤ bins.getD (i + 1) 0)
         else decide (v < bins.getD (i + 1) 0)))).length)

/-- Co-op adjustment of `Report.plot` (Report.py lines 108-110): when the
last two bins differ by exactly 1, add 1 to every bin except the first. -/
def coopShift (bins : List ℚ) : List ℚ :=
  if bins.getD (bins.length - 1) 0 - bins.getD (bins.length - 2) 0 = 1 then
    bins.enum.map (fun p => if 1 ≤ p.1 then p.2 + 1 else p.2)
  else bins

/-- Percentages of one column (Report.py line 140):
`np.histogram(...)[0] / len(data_to_histogram) * 100`.  A column with
true size 0 produces NaN in every bucket (NumPy divides the zero counts
by zero); the all-NaN result is modelled as `none`. -/
def colPcts (bc : List ℚ) (vals : List GVal) : Option (List ℚ) :=
  let cleaned := toNums vals
  if cleaned.length = 0 then none
  else some ((histCounts bc cleaned).map (fun c => (c : ℚ) / cleaned.length * 100))

/-- NDA check of `Report.plot` (Report.py line 145):
`data[col][0] >= NDA_threshold * 100`.  On an all-NaN column the NumPy
comparison is false. -/
def ndaTrigger (thr : ℚ) : Option (List ℚ) → Bool
  | none => false
  | some l => decide (thr * 100 ≤ l.getD 0 0)

/-- Per-column loop of `Report.plot` (Report.py lines 122-149), with the
state `(delete_NDA, bin_labels_copy, data)` threaded through: each column
raises on a text cell, otherwise contributes its percentage list, and —
while `show_NDA` holds and no earlier column triggered — a column whose
first bucket meets the threshold prepends the "No Data Available" label
and clears `delete_NDA`. -/
def plotLoop (sNDA : Bool) (thr : ℚ) (bc : List ℚ) :
    List (String × List GVal) → Bool → List String →
    List (String × Option (List ℚ)) →
    Except Unit (Bool × List String × List (String × Option (List ℚ)))
  | [], dNDA, labels, acc => .ok (dNDA, labels, acc)
  | col :: rest, dNDA, labels, acc =>
    if hasStr col.2 then .error ()
    else
      let pcts := colPcts bc col.2
      let trigger := sNDA && dNDA && ndaTrigger thr pcts
      plotLoop sNDA thr bc rest (if trigger then false else dNDA)
        (if trigger then "No Data Available" :: labels else labels)
        (acc ++ [(col.1, pcts)])

/-- Embedding of the aggregation in `Report.plot` (Report.py lines
91-155): co-op-shift the bins, prepend the `-1` NDA sentinel when
`show_NDA` holds, run the per-column loop, turn a text cell into the
`ValueError` message naming program, course and assessment, and strip the
first bucket of every column when `delete_NDA` survived the loop. -/
def plot (sNDA : Bool) (thr : ℚ) (program course assessment : String)
    (bins : List ℚ) (bin_labels : List String) (grades : List (String × List GVal)) :
    Except String (List String × List (String × Option (List ℚ))) :=
  let bc := if sNDA then (-1 : ℚ) :: coopShift bins else coopShift bins
  match plotLoop sNDA thr bc grades true bin_labels [] with
  | .error _ => .error ("A value in the " ++ program ++ " grades for " ++ course
      ++ " " ++ assessment ++ " is not a number. Please fix and try again.")
  | .ok (dNDA, labels, data) =>
      .ok (labels, if dNDA then data.map (fun c => (c.1, c.2.map (fun l => l.drop 1)))
        else data)

/-- The loop raises exactly the column error: if some column holds a text
cell the loop fails, whatever the state. -/
theorem plotLoop_error (sNDA : Bool) (thr : ℚ) (bc : List ℚ)
    (cols : List (String × List GVal)) (h : ∃ c ∈ cols, hasStr c.2 = true) :
    ∀ dNDA labels acc, plotLoop sNDA thr bc cols dNDA labels acc = .error () := by
  induction cols with
  | nil => simp at h
  | cons c rest ih =>
    intro dNDA labels acc
    by_cases hc : hasStr c.2 = true
    · simp [plotLoop, hc]
    · have hc2 : hasStr c.2 = false := eq_false_of_ne_true hc
      obtain ⟨d, hd, hds⟩ := h
      rcases List.mem_cons.mp hd with rfl | hd2
      · exact absurd hds hc
      · simp only [plotLoop, hc2, Bool.false_eq_true, if_false]
        exact ih ⟨d, hd2, hds⟩ _ _ _

/-- Characterization of a successful loop run: with no text cell in any
column, the loop returns the per-column percentages in order, clears
`delete_NDA` exactly when some column triggers the NDA check, and
prepends the "No Data Available" label exactly in that case. -/
theorem plotLoop_ok (sNDA : Bool) (thr : ℚ) (bc : List ℚ)
    (cols : List (String × List GVal)) (h : ∀ c ∈ cols, hasStr c.2 = false) :
    ∀ dNDA labels acc, plotLoop sNDA thr bc cols dNDA labels acc =
      .ok (dNDA && !(cols.any (fun c => sNDA && ndaTrigger thr (colPcts bc c.2))),
        (if dNDA && cols.any (fun c => sNDA && ndaTrigger thr (colPcts bc c.2))
          then "No Data Available" :: labels else labels,
        acc ++ cols.map (fun c => (c.1, colPcts bc c.2)))) := by
  induction cols with
  | nil => intro dNDA labels acc; simp [plotLoop]
  | cons c rest ih =>
    intro dNDA labels acc
    have hc : hasStr c.2 = false := h c (List.mem_cons_self c rest)
    have hrest : ∀ d ∈ rest, hasStr d.2 = false :=
      fun d hd => h d (List.mem_cons_of_mem c hd)
    have hstep : plotLoop sNDA thr bc (c :: rest) dNDA labels acc =
        plotLoop sNDA thr bc rest
          (if sNDA && dNDA && ndaTrigger thr (colPcts bc c.2) then false else dNDA)
          (if sNDA && dNDA && ndaTrigger thr (colPcts bc c.2)
            then "No Data Available" :: labels else labels)
          (acc ++ [(c.1, colPcts bc c.2)]) := by
      simp [plotLoop, hc]
    rw [hstep, ih hrest]
    cases dNDA <;> cases ht : sNDA && ndaTrigger thr (colPcts bc c.2) <;>
      simp only [List.any_cons, List.map_cons, Bool.and_true, Bool.true_and,
        Bool.and_false, Bool.false_and, ht, Bool.false_or, Bool.true_or,
        Bool.or_false, Bool.false_eq_true, Bool.true_eq_false, if_false, if_true,
        Bool.not_true, Bool.not_false, List.append_assoc, List.singleton_append,
        List.cons_append, List.nil_append, Bool.or_true, Bool.and_self]

/-- A successful loop run means no column held a text cell. -/
theorem plotLoop_ok_no_str (sNDA : Bool) (thr : ℚ) (bc : List ℚ)
    (cols : List (String × List GVal)) :
    ∀ dNDA labels acc st, plotLoop sNDA thr bc cols dNDA labels acc = .ok st →
      ∀ c ∈ cols, hasStr c.2 = false := by
  induction cols with
  | nil => intro _ _ _ _ _ c hc; simp at hc
  | cons c rest ih =>
    intro dNDA labels acc st hok d hd
    by_cases hc : hasStr c.2
    · simp [plotLoop, hc] at hok
    · rcases List.mem_cons.mp hd with rfl | hd2
      · exact eq_false_of_ne_true hc
      · simp only [plotLoop, hc, Bool.false_eq_true, if_false] at hok
        exact ih _ _ _ _ hok d hd2

/-- C4: whenever some series of the grades holds a textual entry,
`Report.plot` fails immediately with the `ValueError` whose message names
the report's program, course and assessment; no coercion of the string
and no silent drop happens (no `.ok` result is produced at all). -/
theorem c4_string_value_raises (sNDA : Bool) (thr : ℚ)
    (program course assessment : String) (bins : List ℚ) (bin_labels : List String)
    (grades : List (String × List GVal)) (h : ∃ c ∈ grades, hasStr c.2 = true) :
    plot sNDA thr program course assessment bins bin_labels grades =
      .error ("A value in the " ++ program ++ " grades for " ++ course ++ " "
        ++ assessment ++ " is not a number. Please fix and try again.") := by
  simp only [plot]
  rw [plotLoop_error _ _ _ _ h]

/-- Closed witness for `c4_string_value_raises`: a concrete series with a
stray text cell produces exactly the formatted error message. -/
theorem c4_string_value_raises_witness :
    plot true (1/10) "ENCM" "ENGI 1040" "Circuits Grade" [0, 50, 60, 80, 100]
      stdLabels [("CO2022: 2 STUDENTS", [GVal.num 85, GVal.str "absent"])] =
      .error "A value in the ENCM grades for ENGI 1040 Circuits Grade is not a number. Please fix and try again." :=
  (c4_string_value_raises true (1/10) "ENCM" "ENGI 1040" "Circuits Grade"
    [0, 50, 60, 80, 100] stdLabels
    [("CO2022: 2 STUDENTS", [GVal.num 85, GVal.str "absent"])]
    ⟨("CO2022: 2 STUDENTS", [GVal.num 85, GVal.str "absent"]), by simp, rfl⟩).trans rfl

/-- C3 counterexample: with threshold 10%, a single series whose NDA
percentage is exactly 10% does not strictly exceed the threshold, yet the
NDA bucket and label are retained — `Report.plot` compares with `>=`,
so the claim's "strips the bucket when no series exceeds the threshold"
fails at this input. -/
theorem c3_counterexample :
    plot true (1/10) "ENCM" "ENGI 1040" "Circuits Grade" [0, 50, 60, 80, 100]
      stdLabels [("CO2022: 10 STUDENTS", GVal.num (-1) :: List.replicate 9 (GVal.num 85))] =
      .ok ("No Data Available" :: stdLabels,
        [("CO2022: 10 STUDENTS", some [10, 0, 0, 0, 90])]) ∧
    ¬ ((1 : ℚ) / 10 * 100 < 10) :=
  ⟨by with_unfolding_all rfl, by norm_num⟩

/-- C3 (amended): when NDA display is enabled, after bucketing every
series the aggregator keeps the prepended "No Data Available" bucket for
all series if any single series' NDA percentage meets or exceeds the
configured threshold (`>=`, as `ReportConfig` documents), and strips that
bucket from every series otherwise. -/
theorem c3_nda_retention_amended (thr : ℚ) (program course assessment : String)
    (bins : List ℚ) (bin_labels : List String) (grades : List (String × List GVal))
    (labels : List String) (data : List (String × Option (List ℚ)))
    (h : plot true thr program course assessment bins bin_labels grades =
      .ok (labels, data)) :
    labels = (if grades.any
        (fun c => ndaTrigger thr (colPcts ((-1 : ℚ) :: coopShift bins) c.2))
      then "No Data Available" :: bin_labels else bin_labels) ∧
    data = grades.map (fun c => (c.1,
      if grades.any (fun g => ndaTrigger thr (colPcts ((-1 : ℚ) :: coopShift bins) g.2))
        then colPcts ((-1 : ℚ) :: coopShift bins) c.2
        else (colPcts ((-1 : ℚ) :: coopShift bins) c.2).map (fun l => l.drop 1))) := by
  by_cases hstr : ∃ c ∈ grades, hasStr c.2 = true
  · exfalso
    simp only [plot, if_true, eq_self_iff_true] at h
    rw [plotLoop_error _ _ _ _ hstr] at h
    simp at h
  · have hclean : ∀ c ∈ grades, hasStr c.2 = false := by
      intro c hc
      by_contra hne
      exact hstr ⟨c, hc, eq_true_of_ne_false hne⟩
    simp only [plot, if_true, eq_self_iff_true] at h
    rw [plotLoop_ok _ _ _ _ hclean] at h
    simp only [Bool.true_and, Bool.and_true, List.nil_append, Except.ok.injEq,
      Prod.mk.injEq] at h
    obtain ⟨hlab, hdat⟩ := h
    cases hany : grades.any
        (fun c => ndaTrigger thr (colPcts ((-1 : ℚ) :: coopShift bins) c.2)) with
    | true =>
      rw [hany] at hlab hdat
      simp only [Bool.not_true, if_true, if_false, Bool.false_eq_true] at hlab hdat
      exact ⟨hlab.symm, by simp [← hdat]⟩
    | false =>
      rw [hany] at hlab hdat
      simp only [Bool.not_false, if_true, if_false, Bool.false_eq_true] at hlab hdat
      refine ⟨hlab.symm, ?_⟩
      rw [← hdat, List.map_map]
      rfl

/-- Closed witness for `c3_nda_retention_amended`, the spec's own
example: two series with NDA percentages 15% and 2% against threshold
10% — both retain the NDA bucket and the label is prepended. -/
theorem c3_nda_retention_amended_witness :
    "No Data Available" :: stdLabels =
      (if [("CO2021: 20 STUDENTS",
              List.replicate 3 (GVal.num (-1)) ++ List.replicate 17 (GVal.num 85)),
            ("CO2022: 50 STUDENTS",
              List.replicate 1 (GVal.num (-1)) ++ List.replicate 49 (GVal.num 85))].any
          (fun c => ndaTrigger (1/10)
            (colPcts ((-1 : ℚ) :: coopShift [0, 50, 60, 80, 100]) c.2))
        then "No Data Available" :: stdLabels else stdLabels) ∧
    [("CO2021: 20 STUDENTS", some [(15 : ℚ), 0, 0, 0, 85]),
     ("CO2022: 50 STUDENTS", some [(2 : ℚ), 0, 0, 0, 98])] =
      [("CO2021: 20 STUDENTS",
          List.replicate 3 (GVal.num (-1)) ++ List.replicate 17 (GVal.num 85)),
        ("CO2022: 50 STUDENTS",
          List.replicate 1 (GVal.num (-1)) ++ List.replicate 49 (GVal.num 85))].map
        (fun c => (c.1,
          if [("CO2021: 20 STUDENTS",
                List.replicate 3 (GVal.num (-1)) ++ List.replicate 17 (GVal.num 85)),
              ("CO2022: 50 STUDENTS",
                List.replicate 1 (GVal.num (-1)) ++ List.replicate 49 (GVal.num 85))].any
              (fun g => ndaTrigger (1/10)
                (colPcts ((-1 : ℚ) :: coopShift [0, 50, 60, 80, 100]) g.2))
            then colPcts ((-1 : ℚ) :: coopShift [0, 50, 60, 80, 100]) c.2
            else (colPcts ((-1 : ℚ) :: coopShift [0, 50, 60, 80, 100]) c.2).map
              (fun l => l.drop 1))) :=
  c3_nda_retention_amended (1/10) "ENCM" "ENGI 1040" "Circuits Grade"
    [0, 50, 60, 80, 100] stdLabels
    [("CO2021: 20 STUDENTS",
        List.replicate 3 (GVal.num (-1)) ++ List.replicate 17 (GVal.num 85)),
      ("CO2022: 50 STUDENTS",
        List.replicate 1 (GVal.num (-1)) ++ List.replicate 49 (GVal.num 85))]
    ("No Data Available" :: stdLabels)
    [("CO2021: 20 STUDENTS", some [(15 : ℚ), 0, 0, 0, 85]),
     ("CO2022: 50 STUDENTS", some [(2 : ℚ), 0, 0, 0, 98])] (by with_unfolding_all rfl)

/-- C5 (code behaviour at the failing input): a series whose entries are
all null has true size 0; `Report.plot` divides the zero histogram counts
by the zero length with no guard, so every bucket of that series comes
out NaN (modelled `none`) — the run neither yields all-0% buckets nor
rejects the series, contradicting the claimed guard. -/
theorem c5_true_size_zero_nan :
    plot true (1/10) "ENCM" "ENGI 1040" "Circuits Grade" [0, 50, 60, 80, 100]
      stdLabels [("CO2022: 0 STUDENTS", [GVal.null, GVal.null])] =
      .ok (stdLabels, [("CO2022: 0 STUDENTS", none)]) ∧
    colPcts ((-1 : ℚ) :: coopShift [0, 50, 60, 80, 100]) [GVal.null, GVal.null] = none :=
  ⟨by with_unfolding_all rfl, by with_unfolding_all rfl⟩

/-! ## Indicator store (`DataStore.py`) -/

/-- Tabular indicator data: column names and rows of cell values (the
cells relevant to the claims are strings). -/
structure Table where
  cols : List String
  rows : List (List String)
  deriving DecidableEq

/-- Substring test on character lists, Python's `in` on strings. -/
def containsSub (needle hay : List Char) : Bool :=
  (List.range (hay.length + 1)).any (fun i => needle.isPrefixOf (hay.drop i))

/-- Lowercasing of a string to a character list (Python `str.lower` on
ASCII names). -/
def lowerChars (s : String) : List Char := s.data.map Char.toLower

/-- Position of the first column whose name contains the key as a
case-insensitive substring: `next((s for s in last_query.columns if
key.lower() in s.lower()), None)` in `DataStore.query_indicators`
(DataStore.py line 128), with the found name resolved to its index. -/
def firstMatchIdx (cols : List String) (key : String) : Option Nat :=
  match cols with
  | [] => none
  | c :: rest =>
    if containsSub (lowerChars key) (lowerChars c) then some 0
    else (firstMatchIdx rest key).map (· + 1)

/-- One filter application of `DataStore.query_indicators` (DataStore.py
lines 126-140): locate the first matching column and keep the rows whose
cell there matches `re.compile('|'.join(values))` — the pattern is
compiled without `re.IGNORECASE` and searched with the case-sensitive
default of `str.contains`, so for literal values a row survives iff some
value occurs as a case-sensitive substring of the cell.  `none` models
the `KeyError` Python raises when no column matches the key. -/
def applyFilter (t : Table) (key : String) (values : List String) : Option Table :=
  match firstMatchIdx t.cols key with
  | none => none
  | some i => some ⟨t.cols,
      t.rows.filter (fun row => values.any (fun v => containsSub v.data (row.getD i "").data))⟩

/-- Iterative filtering of `DataStore.query_indicators` (DataStore.py
lines 125-141): each key narrows the rows surviving the earlier keys. -/
def query_indicators (t : Table) (filters : List (String × List String)) : Option Table :=
  filters.foldl (fun acc f => acc.bind (fun t2 => applyFilter t2 f.1 f.2)) (some t)

/-- Row-level meaning of a single filter: the row survives iff its cell
in the first key-matching column contains some filter value as a
case-sensitive substring. -/
def rowKeep (cols : List String) (f : String × List String) (row : List String) : Bool :=
  match firstMatchIdx cols f.1 with
  | none => false
  | some i => f.2.any (fun v => containsSub v.data (row.getD i "").data)

/-- C7 counterexample: the value matching is not case-insensitive.  The
filter value "engi" matches the cell "ENGI 1040" case-insensitively, yet
the query drops the row, because `re.compile('|'.join(...))` is built
without `re.IGNORECASE` and `str.contains` defaults to case-sensitive. -/
theorem c7_counterexample :
    query_indicators ⟨["Course #"], [["ENGI 1040"]]⟩ [("course", ["engi"])] =
      some ⟨["Course #"], []⟩ ∧
    containsSub (lowerChars "engi") (lowerChars "ENGI 1040") = true := by
  exact ⟨rfl, by decide⟩

/-- C7 (amended): for every table and filter list in which every key has
a (case-insensitively) matching column, the query applies the filters
iteratively — the result keeps exactly the rows that survive every
filter, an AND-of-ORs — where each filter keys on the first column whose
name contains the key case-insensitively, and retains the rows whose
cell there contains some value of the filter's list as a case-SENSITIVE
substring (the regex alternation is compiled without `re.IGNORECASE`). -/
theorem c7_query_filters_amended (t : Table) (filters : List (String × List String))
    (h : ∀ f ∈ filters, (firstMatchIdx t.cols f.1).isSome = true) :
    query_indicators t filters =
      some ⟨t.cols, t.rows.filter (fun row =>
        filters.all (fun f => rowKeep t.cols f row))⟩ := by
  induction filters generalizing t with
  | nil =>
    simp only [query_indicators, List.foldl_nil, List.all_nil, List.filter_true]
  | cons f fs ih =>
    have hf : (firstMatchIdx t.cols f.1).isSome = true :=
      h f (List.mem_cons_self f fs)
    obtain ⟨i, hi⟩ := Option.isSome_iff_exists.mp hf
    have hstep : query_indicators t (f :: fs) =
        query_indicators ⟨t.cols, t.rows.filter (fun row =>
          f.2.any (fun v => containsSub v.data (row.getD i "").data))⟩ fs := by
      simp [query_indicators, applyFilter, hi]
    rw [hstep, ih _ (by intro g hg; exact h g (List.mem_cons_of_mem f hg))]
    simp only [Option.some.injEq, Table.mk.injEq, true_and, List.filter_filter]
    refine List.filter_congr ?_
    intro row _
    simp only [List.all_cons, rowKeep, hi, Bool.and_comm]

/-- Closed witness for `c7_query_filters_amended` at a concrete table:
filtering the course column on the (exact-case) value "ENGI". -/
theorem c7_query_filters_amended_witness :
    query_indicators ⟨["Course #"], [["ENGI 1040"], ["MATH 2000"]]⟩
      [("course", ["ENGI"])] =
      some ⟨["Course #"], [["ENGI 1040"], ["MATH 2000"]].filter (fun row =>
        [("course", ["ENGI"])].all (fun f => rowKeep ["Course #"] f row))⟩ :=
  c7_query_filters_amended ⟨["Course #"], [["ENGI 1040"], ["MATH 2000"]]⟩
    [("course", ["ENGI"])] (by decide)

/-- Embedding of the indicator-loading loop of `DataStore.__init__`
(DataStore.py lines 71-75): `self.indicators[p] = pd.read_excel(...)` for
each program in order, with no exception handling around it — on a
missing file `pd.read_excel` raises `FileNotFoundError`, which propagates
out of the constructor.  The indicator folder is abstracted as a partial
map from program name to its table. -/
def loadIndicators (fs : String → Option Table) :
    List String → Except String (List (String × Table))
  | [] => .ok []
  | p :: rest =>
    match fs p with
    | none => .error ("FileNotFoundError: " ++ p)
    | some t => (loadIndicators fs rest).map (fun l => (p, t) :: l)

/-- Concrete indicator folder holding only the ECE file. -/
def c8fs : String → Option Table :=
  fun p => if p = "ECE" then some ⟨["Indicator #"], []⟩ else none

/-- C8 counterexample: loading programs ECE and ENCM from a folder where
the ENCM indicator file is missing does not construct a store with ENCM
absent — the whole construction fails with the propagated
`FileNotFoundError` (there is no try/except in `DataStore.__init__`). -/
theorem c8_counterexample :
    loadIndicators c8fs ["ECE", "ENCM"] = .error "FileNotFoundError: ENCM" := rfl

/-- C8 (amended): a missing indicator file for any requested program is
fatal — the constructor's loading loop raises `FileNotFoundError` for
some missing program and no store value is produced; the remaining
programs are not skipped and the event is not merely reported. -/
theorem c8_missing_file_fatal (fs : String → Option Table) (programs : List String)
    (p : String) (hmem : p ∈ programs) (hmiss : fs p = none) :
    ∃ q, fs q = none ∧
      loadIndicators fs programs = .error ("FileNotFoundError: " ++ q) := by
  induction programs with
  | nil => simp at hmem
  | cons a rest ih =>
    by_cases ha : fs a = none
    · exact ⟨a, ha, by simp [loadIndicators, ha]⟩
    · obtain ⟨t, ht⟩ := Option.ne_none_iff_exists'.mp ha
      rcases List.mem_cons.mp hmem with rfl | hmem2
      · exact absurd hmiss ha
      · obtain ⟨q, hq, hload⟩ := ih hmem2
        exact ⟨q, hq, by simp [loadIndicators, ht, hload, Except.map]⟩

/-- Closed witness for `c8_missing_file_fatal` at the concrete folder. -/
theorem c8_missing_file_fatal_witness :
    ∃ q, c8fs q = none ∧
      loadIndicators c8fs ["ECE", "ENCM"] = .error ("FileNotFoundError: " ++ q) :=
  c8_missing_file_fatal c8fs ["ECE", "ENCM"] "ENCM" (by simp) rfl

end CIReportGen
